import Mathlib

/-!
Shallow embedding of `src/app.py` (a Streamlit chat front-end around the
OpenAI Assistants API).

Modelling conventions:
* Streamlit session state is passed explicitly: the email log
  (`st.session_state.email_history`), the saved contact list
  (`st.session_state.saved_emails`) and the assistant/knowledge/thread
  triple are explicit values threaded through the functions.
* Remote calls (`openai_client.beta.threads...`) are modelled by an
  environment `RemoteEnv` that fixes the outcome of each round trip; a
  Python exception raised by a call is an `Except.error` carrying the
  exception text.  The successive results of `runs.retrieve` inside the
  polling loop form a list: consuming the whole list without reaching a
  terminal status models a loop that is still running (the real loop has
  no iteration bound, so an everywhere-non-terminal sequence never exits).
* `json.loads(call.function.arguments)` is abstracted to the already
  parsed JSON object: an association list of string keys to string values
  (the `send_email` schema declares only string fields; a parsed Python
  dict has pairwise distinct keys).
* Python keyword expansion `simulate_email_sending(**args)` is modelled
  faithfully by `bindEmailKwargs`: the handler parameters are named
  `recipient`, `subject`, `message_body`, and binding raises `TypeError`
  on an unexpected or missing keyword, exactly as CPython does.
* `time.strftime(...)` is abstracted to a timestamp string supplied by the
  environment; `time.sleep(1)` is counted (`sleeps` field).
* `st.error`/`st.warning` messages are collected as observable output.
-/

namespace App

/-- A Capability Invocation Record, as stored in
`st.session_state.email_history` by `simulate_email_sending`. -/
structure EmailRecord where
  recipient : String
  subject : String
  body : String
  sent_at : String
deriving Repr, DecidableEq

/-- Embedding of `simulate_email_sending(recipient, subject, message_body)`
(src/app.py lines 13-33): appends one record to the email history and
returns the confirmation string.  `now` stands for
`time.strftime(...)` at the moment of the call. -/
def simulate_email_sending (recipient subject message_body : String)
    (now : String) (email_history : List EmailRecord) :
    String × List EmailRecord :=
  ("Email successfully sent to " ++ recipient,
   email_history ++
     [{ recipient := recipient, subject := subject, body := message_body,
        sent_at := now }])

/-- One entry of `required_action.submit_tool_outputs.tool_calls`:
`call.id`, `call.function.name`, and the parsed JSON argument object
`json.loads(call.function.arguments)` as key/value pairs. -/
structure ToolCall where
  id : String
  name : String
  arguments : List (String × String)
deriving Repr, DecidableEq

/-- One element appended to `function_results`
(`{"tool_call_id": call.id, "output": result}`). -/
structure ToolOutput where
  tool_call_id : String
  output : String
deriving Repr, DecidableEq

/-- Dictionary lookup in a parsed JSON object (keys are distinct). -/
def lookupKey (key : String) : List (String × String) → Option String
  | [] => none
  | kv :: rest => if kv.1 = key then some kv.2 else lookupKey key rest

/-- CPython keyword binding for the call `simulate_email_sending(**args)`
(src/app.py line 137).  The parameters of `simulate_email_sending` are
named `recipient`, `subject` and `message_body`; a key of `args` outside
that set raises `TypeError: ... got an unexpected keyword argument ...`
(checked before missing arguments, as CPython does), and an unbound
parameter raises a missing-argument `TypeError`. -/
def bindEmailKwargs (args : List (String × String)) :
    Except String (String × String × String) :=
  match args.find? (fun kv =>
      kv.1 ≠ "recipient" ∧ kv.1 ≠ "subject" ∧ kv.1 ≠ "message_body") with
  | some kv =>
      .error ("TypeError: simulate_email_sending() got an unexpected keyword argument "
        ++ kv.1)
  | none =>
      match lookupKey "recipient" args, lookupKey "subject" args,
            lookupKey "message_body" args with
      | some r, some s, some b => .ok (r, s, b)
      | _, _, _ =>
          .error "TypeError: simulate_email_sending() missing required positional arguments"

/-- The `for call in function_calls:` loop of `handle_conversation`
(src/app.py lines 134-141): calls named `send_email` are dispatched to
`simulate_email_sending(**args)` and contribute one `ToolOutput`; calls
with any other name are skipped.  A `TypeError` raised by keyword
binding aborts the iteration (first component `.error`); the email
records already appended stay in the session state (second component). -/
def processToolCalls (now : String) :
    List ToolCall → List EmailRecord →
    Except String (List ToolOutput) × List EmailRecord
  | [], email_history => (.ok [], email_history)
  | call :: rest, email_history =>
    if call.name = "send_email" then
      match bindEmailKwargs call.arguments with
      | .error e => (.error e, email_history)
      | .ok (recipient, subject, message_body) =>
        let sent := simulate_email_sending recipient subject message_body now
          email_history
        match processToolCalls now rest sent.2 with
        | (.ok outs, email_history') =>
            (.ok ({ tool_call_id := call.id, output := sent.1 } :: outs),
             email_history')
        | (.error e, email_history') => (.error e, email_history')
    else
      processToolCalls now rest email_history

/-- The run status returned by `runs.retrieve`.  The code matches
`completed`, `requires_action` (carrying its tool calls), and the
terminal failures `failed`/`cancelled`/`expired`; every other status
(`queued`, `in_progress`, ...) only falls through to `time.sleep(1)`
and is represented by `running`. -/
inductive RunStatus where
  | running
  | requires_action (tool_calls : List ToolCall)
  | completed
  | failed
  | cancelled
  | expired
deriving Repr, DecidableEq

/-- The string interpolated into `f"Assistant run failed: {current_run.status}"`. -/
def RunStatus.statusName : RunStatus → String
  | .running => "running"
  | .requires_action _ => "requires_action"
  | .completed => "completed"
  | .failed => "failed"
  | .cancelled => "cancelled"
  | .expired => "expired"

/-- Statuses on which the polling loop exits. -/
def RunStatus.isTerminal : RunStatus → Bool
  | .completed | .failed | .cancelled | .expired => true
  | _ => false

/-- Statuses of the terminal-failure `elif` arm (failed, cancelled, expired). -/
def RunStatus.isTerminalFailure : RunStatus → Bool
  | .failed | .cancelled | .expired => true
  | _ => false

/-- Outcomes of the remote round trips made by one `handle_conversation`
call.  `pollResults` lists the successive results of `runs.retrieve`;
`listMessages` is `messages.list(...).data` with each message reduced to
the list of its `content[i].text.value` strings (`data[0]` is the most
recent message). -/
structure RemoteEnv where
  newThreadId : Except String String
  addMessage : Except String Unit
  newRunId : Except String String
  pollResults : List (Except String RunStatus)
  submitOutcome : Except String Unit
  listMessages : Except String (List (List String))
  now : String
deriving Repr

/-- What a `handle_conversation` call did: `ret reply thread` is the
Python `return (reply, conversation_thread)`; `diverge` means the
supplied poll trace ran out with the loop still going (the real loop
would keep polling forever on such a trace). -/
inductive Outcome where
  | ret (reply : Option String) (thread : Option String)
  | diverge
deriving Repr, DecidableEq

/-- Result and observable effects of one `handle_conversation` call. -/
structure HCResult where
  outcome : Outcome
  email_history : List EmailRecord
  submitted : List (List ToolOutput)
  errors : List String
  sleeps : Nat
deriving Repr, DecidableEq

/-- The `except Exception as error:` block of `handle_conversation`
(src/app.py lines 161-163): `st.error(f"Conversation error: {...}")`,
then `return None, conversation_thread`. -/
def exceptReturn (e : String) (conversation_thread : Option String)
    (email_history : List EmailRecord) (submitted : List (List ToolOutput))
    (sleeps : Nat) : HCResult :=
  { outcome := .ret none conversation_thread,
    email_history := email_history,
    submitted := submitted,
    errors := ["Conversation error: " ++ e],
    sleeps := sleeps }

/-- Epilogue of the `completed` break exit, covering
src/app.py lines 156-159: `messages.list`, `messages.data[0]`,
`latest_response.content[0].text.value`.  Indexing an empty list raises
`IndexError`, which the outer `except` catches. -/
def fetchLatest (env : RemoteEnv) (conversation_thread : String)
    (email_history : List EmailRecord) (submitted : List (List ToolOutput))
    (sleeps : Nat) : HCResult :=
  match env.listMessages with
  | .error e => exceptReturn e (some conversation_thread) email_history submitted sleeps
  | .ok data =>
    match data with
    | [] => exceptReturn "IndexError: list index out of range"
        (some conversation_thread) email_history submitted sleeps
    | latest_response :: _ =>
      match latest_response with
      | [] => exceptReturn "IndexError: list index out of range"
          (some conversation_thread) email_history submitted sleeps
      | text :: _ =>
        { outcome := .ret (some text) (some conversation_thread),
          email_history := email_history,
          submitted := submitted,
          errors := [],
          sleeps := sleeps }

/-- The `while True:` polling loop of `handle_conversation`
(src/app.py lines 121-153), consuming the successive `runs.retrieve`
results.  `completed` breaks out (no sleep) and fetches the latest
message; `requires_action` dispatches the tool calls, submits the full
batch in one round trip, then sleeps; a terminal failure reports
`st.error(f"Assistant run failed: ...")` and returns
`(None, conversation_thread)` (no sleep); anything else just sleeps.
An exhausted trace models the loop still polling (`diverge`). -/
def runPollLoop (env : RemoteEnv) (conversation_thread : String) :
    List (Except String RunStatus) → List EmailRecord →
    List (List ToolOutput) → Nat → HCResult
  | [], email_history, submitted, sleeps =>
    { outcome := .diverge, email_history := email_history,
      submitted := submitted, errors := [], sleeps := sleeps }
  | poll :: rest, email_history, submitted, sleeps =>
    match poll with
    | .error e => exceptReturn e (some conversation_thread) email_history submitted sleeps
    | .ok status =>
      match status with
      | .completed =>
          fetchLatest env conversation_thread email_history submitted sleeps
      | .requires_action function_calls =>
        match processToolCalls env.now function_calls email_history with
        | (.error e, email_history') =>
            exceptReturn e (some conversation_thread) email_history' submitted sleeps
        | (.ok function_results, email_history') =>
          match env.submitOutcome with
          | .error e =>
              exceptReturn e (some conversation_thread) email_history' submitted sleeps
          | .ok _ =>
              runPollLoop env conversation_thread rest email_history'
                (submitted ++ [function_results]) (sleeps + 1)
      | .failed | .cancelled | .expired =>
        { outcome := .ret none (some conversation_thread),
          email_history := email_history,
          submitted := submitted,
          errors := ["Assistant run failed: " ++ status.statusName],
          sleeps := sleeps }
      | .running =>
          runPollLoop env conversation_thread rest email_history submitted (sleeps + 1)

/-- Body of `handle_conversation` after the thread id is settled: add the user
message, create the run, then poll (src/app.py lines 108-159).  A raised
exception lands in the `except` block with the current
`conversation_thread`. -/
def handleWithThread (env : RemoteEnv) (conversation_thread : String)
    (email_history : List EmailRecord) : HCResult :=
  match env.addMessage with
  | .error e => exceptReturn e (some conversation_thread) email_history [] 0
  | .ok _ =>
    match env.newRunId with
    | .error e => exceptReturn e (some conversation_thread) email_history [] 0
    | .ok _ => runPollLoop env conversation_thread env.pollResults email_history [] 0

/-- Embedding of `handle_conversation(assistant_id, user_input, conversation_thread)`
(src/app.py lines 96-163).  When `conversation_thread` is `None` a new
thread is created first; if that creation itself raises, the `except`
block still sees `conversation_thread = None` and the call returns
`(None, None)`. -/
def handle_conversation (env : RemoteEnv) (assistant_id : String)
    (user_input : String) (conversation_thread : Option String)
    (email_history : List EmailRecord) : HCResult :=
  match conversation_thread with
  | none =>
    match env.newThreadId with
    | .error e => exceptReturn e none email_history [] 0
    | .ok thread_id => handleWithThread env thread_id email_history
  | some thread_id => handleWithThread env thread_id email_history

/-- ASCII whitespace as stripped by Python `str.strip()` (space, tab,
newline, carriage return, vertical tab, form feed). -/
def pyIsSpace (c : Char) : Bool :=
  c = ' ' || c = '\t' || c = '\n' || c = '\r' ||
  c = Char.ofNat 11 || c = Char.ofNat 12

/-- Python `s.strip()`: drop leading and trailing whitespace. -/
def pyStrip (s : String) : String :=
  String.mk (((s.toList.dropWhile pyIsSpace).reverse.dropWhile pyIsSpace).reverse)

/-- Python truthiness of an `Optional[str]`: `None` and `""` are falsy. -/
def pyOptTruthy : Option String → Bool
  | none => false
  | some s => s ≠ ""

/-- The per-assistant part of `st.session_state` written by the
Save-Context flow: `assistant_id`, `knowledge_base`,
`conversation_thread` (absent keys modelled as `none`). -/
structure SessionState where
  assistant_id : Option String
  knowledge_base : Option String
  conversation_thread : Option String
deriving Repr, DecidableEq

/-- Embedding of `build_custom_assistant(knowledge_base)` (src/app.py lines 62-94):
one remote `assistants.create` round trip whose outcome is
`createOutcome`; on success the assistant id is returned, on exception
`st.error(...)` is shown and the function returns `None`. -/
def build_custom_assistant (createOutcome : Except String String) : Option String :=
  match createOutcome with
  | .ok assistant_id => some assistant_id
  | .error _ => none

/-- What the Save-Context button handler did. -/
structure SaveResult where
  invoked_build : Bool
  state : SessionState
  warned : Bool
deriving Repr, DecidableEq

/-- The `if st.button("💾 Save Context", ...)` body of
`render_knowledge_section` (src/app.py lines 199-210): the guard
`if knowledge_content.strip():` decides whether
`build_custom_assistant` is invoked at all; on a truthy assistant id the
three session keys are overwritten (`conversation_thread` reset to
`None`), otherwise the session state is left as it was; a blank
submission only shows a warning. -/
def render_knowledge_section_save (knowledge_content : String)
    (createOutcome : Except String String) (st : SessionState) : SaveResult :=
  if pyStrip knowledge_content ≠ "" then
    let assistant_id := build_custom_assistant createOutcome
    if pyOptTruthy assistant_id then
      { invoked_build := true,
        state := { assistant_id := assistant_id,
                   knowledge_base := some knowledge_content,
                   conversation_thread := none },
        warned := false }
    else
      { invoked_build := true, state := st, warned := false }
  else
    { invoked_build := false, state := st, warned := true }

/-- The Save-Email action of `render_sidebar` (src/app.py lines 174-178):
append `user_email` to `st.session_state.saved_emails` unless it is
already present. -/
def save_email (saved_emails : List String) (user_email : String) : List String :=
  if user_email ∈ saved_emails then saved_emails else saved_emails ++ [user_email]

/-! ### Analysis helpers, used in theorem statements only -/

/-- Holds when `simulate_email_sending(**call.arguments)` binds without raising `TypeError`. -/
def bindsOk (call : ToolCall) : Bool :=
  match bindEmailKwargs call.arguments with
  | .ok _ => true
  | .error _ => false

/-- A polled status whose processing raises no exception: a
`requires_action` batch may only carry `send_email` calls whose keyword
binding succeeds (other names are skipped and raise nothing). -/
def statusOk : RunStatus → Bool
  | .requires_action tool_calls =>
      tool_calls.all fun c => !(c.name == "send_email") || bindsOk c
  | _ => true

/-! ### Concrete fixtures for counterexamples and witnesses -/

/-- The invocation of claim C1: `send_email` with the argument keys
declared by `EMAIL_FUNCTION_SCHEMA` (`to`, `subject`, `body`). -/
def c1Call : ToolCall :=
  { id := "call_1", name := "send_email",
    arguments := [("to", "a@b.com"), ("subject", "S"), ("body", "B")] }

/-- The environment of claim C1: every round trip succeeds and the job
transitions `running → requires_action([c1Call]) → running → completed`. -/
def c1Env : RemoteEnv :=
  { newThreadId := .ok "thread_1", addMessage := .ok (), newRunId := .ok "run_1",
    pollResults := [.ok .running, .ok (.requires_action [c1Call]),
                    .ok .running, .ok .completed],
    submitOutcome := .ok (), listMessages := .ok [["Final reply"]], now := "t1" }

/-- Environment for the C2 witness: the job polls `running` once and then `failed`. -/
def c2Env : RemoteEnv :=
  { newThreadId := .ok "thread_2", addMessage := .ok (), newRunId := .ok "run_2",
    pollResults := [.ok .running, .ok .failed],
    submitOutcome := .ok (), listMessages := .ok [["unreached"]], now := "t2" }

/-- A `send_email` invocation with the schema argument keys, for claim C4. -/
def c4BadCall : ToolCall :=
  { id := "call_4", name := "send_email",
    arguments := [("to", "u@v.org"), ("subject", "Hi"), ("body", "Hello")] }

/-- Environment for the C4 witness. -/
def c4Env : RemoteEnv :=
  { newThreadId := .ok "thread_4", addMessage := .ok (), newRunId := .ok "run_4",
    pollResults := [], submitOutcome := .ok (),
    listMessages := .ok [["done"]], now := "t4" }

/-- A `send_email` invocation whose argument keys happen to match the
handler parameter names, so keyword binding succeeds (C4 witness). -/
def c4GoodCall : ToolCall :=
  { id := "call_4g", name := "send_email",
    arguments := [("recipient", "u@v.org"), ("subject", "Hi"), ("message_body", "Hello")] }

/-- An invocation whose declared name is not `send_email` (C4 witness):
the dispatch loop skips it. -/
def c4OtherCall : ToolCall :=
  { id := "call_4o", name := "lookup_weather", arguments := [("city", "Paris")] }

/-- A `send_email` invocation with the schema argument keys, for claim C5. -/
def c5BadCall : ToolCall :=
  { id := "call_5", name := "send_email",
    arguments := [("to", "w@x.io"), ("subject", "Q"), ("body", "R")] }

/-- A `send_email` invocation whose argument keys happen to match the
handler parameter names, so keyword binding succeeds (C5 witness). -/
def c5GoodCall : ToolCall :=
  { id := "call_5g", name := "send_email",
    arguments := [("recipient", "w@x.io"), ("subject", "Q"), ("message_body", "R")] }

/-- Environment for the C7 witness. -/
def c7Env : RemoteEnv :=
  { newThreadId := .ok "thread_7", addMessage := .ok (), newRunId := .ok "run_7",
    pollResults := [], submitOutcome := .ok (),
    listMessages := .ok [["done"]], now := "t7" }

/-- Environment for the C10 witness: thread creation itself raises. -/
def c10Env : RemoteEnv :=
  { newThreadId := .error "APIConnectionError", addMessage := .ok (),
    newRunId := .ok "run_10", pollResults := [.ok .completed],
    submitOutcome := .ok (), listMessages := .ok [["done"]], now := "t10" }

/-! ## Theorems -/

/-- C1: evaluation of the relay on the claimed trace
`running → requires_action(send_email to=a@b.com, subject=S, body=B) → running → completed`.
The handler parameters are named `recipient`/`subject`/`message_body`
while the schema keys are `to`/`subject`/`body`, so
`simulate_email_sending(**args)` raises `TypeError` at the first
invocation: the call returns `(None, thread_1)` with NO Capability
Invocation Record appended, NO output batch submitted, and no final
message text — contradicting the claimed one record, one batch of size 1
and returned text. -/
theorem c1_schema_keyed_invocation_fails :
    handle_conversation c1Env "asst_1" "hello" none [] =
      { outcome := .ret none (some "thread_1"),
        email_history := [],
        submitted := [],
        errors := ["Conversation error: TypeError: simulate_email_sending() got an unexpected keyword argument to"],
        sleeps := 1 } := by
  rfl

/-- C3 counterexample: at recipient `a@b.com`, subject `Z9`, body `B`,
the confirmation string returned by `simulate_email_sending` is
`Email successfully sent to a@b.com`, which does not embed the subject
`Z9` — refuting the claim that the returned string embeds both the
recipient and the subject. -/
theorem c3_confirmation_omits_subject :
    (simulate_email_sending "a@b.com" "Z9" "B" "t3" []).1
        = "Email successfully sent to a@b.com" ∧
    ¬ ("Z9".toList <:+: (simulate_email_sending "a@b.com" "Z9" "B" "t3" []).1.toList) :=
  ⟨rfl, by decide⟩

/-- C3 amended: `simulate_email_sending` never fails — for every
recipient, subject and body it returns the fixed confirmation string
`Email successfully sent to` followed by the recipient (so the recipient
is embedded, the subject is not), and appends exactly one record. -/
theorem c3_confirmation_embeds_recipient (recipient subject message_body now : String)
    (email_history : List EmailRecord) :
    (simulate_email_sending recipient subject message_body now email_history).1
        = "Email successfully sent to " ++ recipient ∧
    recipient.toList <:+:
      (simulate_email_sending recipient subject message_body now email_history).1.toList ∧
    (simulate_email_sending recipient subject message_body now email_history).2
        = email_history ++
          [{ recipient := recipient, subject := subject, body := message_body,
             sent_at := now }] := by
  refine ⟨rfl, ?_, rfl⟩
  show recipient.toList <:+: ("Email successfully sent to " ++ recipient).toList
  have h : ("Email successfully sent to " ++ recipient).toList
      = "Email successfully sent to ".toList ++ recipient.toList :=
    String.data_append ..
  rw [h]
  exact (List.suffix_append _ _).isInfix

/-- If every character of `s` is Python whitespace then `s.strip()` is empty. -/
theorem pyStrip_eq_empty_of_all_space (s : String)
    (h : ∀ c ∈ s.toList, pyIsSpace c = true) : pyStrip s = "" := by
  unfold pyStrip
  rw [List.dropWhile_eq_nil_iff.mpr h]
  rfl

/-- C6: the Save-Context guard `if knowledge_content.strip():` never lets
an empty or whitespace-only knowledge text reach
`build_custom_assistant`: any all-whitespace input (in particular `""`
and three spaces) is rejected with a warning and no agent creation,
while `"x"` passes the guard and `build_custom_assistant` is invoked. -/
theorem c6_blank_knowledge_guard :
    (∀ (knowledge_content : String) (createOutcome : Except String String)
        (st : SessionState),
        (∀ c ∈ knowledge_content.toList, pyIsSpace c = true) →
        render_knowledge_section_save knowledge_content createOutcome st
          = { invoked_build := false, state := st, warned := true }) ∧
    (∀ createOutcome st,
        (render_knowledge_section_save "" createOutcome st).invoked_build = false) ∧
    (∀ createOutcome st,
        (render_knowledge_section_save "   " createOutcome st).invoked_build = false) ∧
    (∀ createOutcome st,
        (render_knowledge_section_save "x" createOutcome st).invoked_build = true) := by
  refine ⟨?_, ?_, ?_, ?_⟩
  · intro knowledge_content createOutcome st h
    unfold render_knowledge_section_save
    rw [if_neg]
    simp [pyStrip_eq_empty_of_all_space knowledge_content h]
  · intro createOutcome st
    unfold render_knowledge_section_save
    rw [if_neg (by decide)]
  · intro createOutcome st
    unfold render_knowledge_section_save
    rw [if_neg (by decide)]
  · intro createOutcome st
    unfold render_knowledge_section_save
    rw [if_pos (by decide)]
    dsimp only
    split <;> rfl

/-- C6 witness: the guard at the whitespace-only input of three spaces,
with a provisioning environment that would succeed. -/
theorem c6_blank_knowledge_guard_witness :
    render_knowledge_section_save "   " (.ok "asst_6")
        { assistant_id := some "A", knowledge_base := some "K",
          conversation_thread := some "T" }
      = { invoked_build := false,
          state := { assistant_id := some "A", knowledge_base := some "K",
                     conversation_thread := some "T" },
          warned := true } :=
  c6_blank_knowledge_guard.1 "   " (.ok "asst_6") _ (by decide)

/-- C8: the Saved-Contact list is deduplicated and append-only: saving a
present email leaves the list unchanged, saving a new email appends it
at the end, any sequence of save actions only extends the list (the old
list stays a prefix, so nothing is removed or reordered), and a
duplicate-free list stays duplicate-free. -/
theorem c8_saved_emails_dedup_append_only (saved_emails : List String)
    (user_email : String) :
    (user_email ∈ saved_emails → save_email saved_emails user_email = saved_emails) ∧
    (user_email ∉ saved_emails →
        save_email saved_emails user_email = saved_emails ++ [user_email]) ∧
    (∀ actions : List String,
        saved_emails <+: List.foldl save_email saved_emails actions) ∧
    (saved_emails.Nodup →
        ∀ actions : List String, (List.foldl save_email saved_emails actions).Nodup) := by
  have hstep : ∀ (l : List String) (e : String),
      save_email l e = l ∨ save_email l e = l ++ [e] := by
    intro l e
    unfold save_email
    by_cases h : e ∈ l
    · exact Or.inl (if_pos h)
    · exact Or.inr (if_neg h)
  have hpre : ∀ (actions : List String) (l : List String),
      l <+: List.foldl save_email l actions := by
    intro actions
    induction actions with
    | nil => intro l; exact List.prefix_refl l
    | cons a rest ih =>
      intro l
      have h1 : l <+: save_email l a := by
        rcases hstep l a with h | h
        · rw [h]
        · rw [h]; exact List.prefix_append l [a]
      exact h1.trans (ih (save_email l a))
  have hnodup : ∀ (actions : List String) (l : List String),
      l.Nodup → (List.foldl save_email l actions).Nodup := by
    intro actions
    induction actions with
    | nil => intro l h; exact h
    | cons a rest ih =>
      intro l h
      refine ih (save_email l a) ?_
      unfold save_email
      by_cases hmem : a ∈ l
      · rw [if_pos hmem]; exact h
      · rw [if_neg hmem]
        exact List.nodup_append.mpr
          ⟨h, List.nodup_singleton a,
           fun x hx hxa => hmem (by rwa [List.mem_singleton.mp hxa] at hx)⟩
  refine ⟨fun h => if_pos h, fun h => if_neg h, fun actions => hpre actions _,
    fun h actions => hnodup actions _ h⟩

/-- C8 witness: a concrete save sequence on the list `[a@b.com]`:
re-saving the present address is a no-op, a fresh address is appended,
the original list stays a prefix, and no duplicate appears. -/
theorem c8_saved_emails_witness :
    save_email ["a@b.com"] "a@b.com" = ["a@b.com"] ∧
    save_email ["a@b.com"] "c@d.org" = ["a@b.com", "c@d.org"] ∧
    ["a@b.com"] <+: List.foldl save_email ["a@b.com"] ["c@d.org", "a@b.com"] ∧
    (List.foldl save_email ["a@b.com"] ["c@d.org", "a@b.com"]).Nodup := by
  obtain ⟨h1, h2, h3, h4⟩ := c8_saved_emails_dedup_append_only ["a@b.com"] "a@b.com"
  obtain ⟨-, h2', -, -⟩ := c8_saved_emails_dedup_append_only ["a@b.com"] "c@d.org"
  exact ⟨h1 (by decide), h2' (by decide), h3 ["c@d.org", "a@b.com"],
    h4 (by decide) ["c@d.org", "a@b.com"]⟩

/-- C9: when provisioning fails (`build_custom_assistant` returns
`None`) the Save-Context flow leaves the session state untouched: the
stored `assistant_id`, `knowledge_base` and `conversation_thread` keep
their previous values. -/
theorem c9_failed_provisioning_preserves_state (knowledge_content : String)
    (createOutcome : Except String String) (st : SessionState)
    (h : build_custom_assistant createOutcome = none) :
    (render_knowledge_section_save knowledge_content createOutcome st).state = st := by
  unfold render_knowledge_section_save
  simp only [h]
  split
  · rw [if_neg (by simp [pyOptTruthy])]
  · rfl

/-- C9 witness: a failing `assistants.create` call leaves a previously
provisioned agent, its knowledge base and its conversation thread in
place. -/
theorem c9_failed_provisioning_witness :
    (render_knowledge_section_save "new knowledge" (.error "RateLimitError")
        { assistant_id := some "asst_old", knowledge_base := some "old",
          conversation_thread := some "thread_old" }).state
      = { assistant_id := some "asst_old", knowledge_base := some "old",
          conversation_thread := some "thread_old" } :=
  c9_failed_provisioning_preserves_state "new knowledge" (.error "RateLimitError") _ rfl

/-- Consuming `k` polls of a non-terminal status just advances the loop,
adding one `time.sleep(1)` per poll. -/
theorem runPollLoop_replicate_running (env : RemoteEnv) (tid : String) (k : Nat)
    (rest : List (Except String RunStatus)) (email_history : List EmailRecord)
    (submitted : List (List ToolOutput)) (n : Nat) :
    runPollLoop env tid (List.replicate k (.ok .running) ++ rest) email_history submitted n =
      runPollLoop env tid rest email_history submitted (n + k) := by
  induction k generalizing n with
  | zero => rfl
  | succ k ih =>
    rw [List.replicate_succ, List.cons_append]
    have hstep : runPollLoop env tid
        ((.ok .running) :: (List.replicate k (.ok .running) ++ rest))
        email_history submitted n
        = runPollLoop env tid (List.replicate k (.ok .running) ++ rest)
            email_history submitted (n + 1) := rfl
    rw [hstep, ih]
    congr 1
    omega

/-- C2: when the polled job status becomes `failed`, `cancelled` or
`expired` (after any number of `running` polls), the relay shows the
user-visible error `Assistant run failed: <status>` and returns
`(None, conversation_thread)` with the supplied or freshly created
thread id preserved; the email history is unchanged, so a job that goes
directly to `failed` (k = 0) creates no Capability Invocation Record. -/
theorem c2_terminal_failure (env : RemoteEnv) (assistant_id user_input : String)
    (conversation_thread : Option String) (tid : String)
    (email_history : List EmailRecord) (k : Nat) (s : RunStatus)
    (hthread : conversation_thread = some tid ∨
      (conversation_thread = none ∧ env.newThreadId = .ok tid))
    (hmsg : env.addMessage = .ok ()) (hrun : ∃ rid, env.newRunId = .ok rid)
    (hpoll : env.pollResults = List.replicate k (.ok .running) ++ [.ok s])
    (hs : s.isTerminalFailure = true) :
    handle_conversation env assistant_id user_input conversation_thread email_history =
      { outcome := .ret none (some tid),
        email_history := email_history,
        submitted := [],
        errors := ["Assistant run failed: " ++ s.statusName],
        sleeps := k } := by
  obtain ⟨rid, hrid⟩ := hrun
  have hwt : handleWithThread env tid email_history =
      { outcome := .ret none (some tid), email_history := email_history,
        submitted := [], errors := ["Assistant run failed: " ++ s.statusName],
        sleeps := k } := by
    unfold handleWithThread
    rw [hmsg, hrid, hpoll, runPollLoop_replicate_running]
    cases s with
    | failed => simp [runPollLoop, RunStatus.statusName]
    | cancelled => simp [runPollLoop, RunStatus.statusName]
    | expired => simp [runPollLoop, RunStatus.statusName]
    | running => simp [RunStatus.isTerminalFailure] at hs
    | completed => simp [RunStatus.isTerminalFailure] at hs
    | requires_action calls => simp [RunStatus.isTerminalFailure] at hs
  rcases hthread with h | ⟨h1, h2⟩
  · rw [h]; exact hwt
  · rw [h1]; unfold handle_conversation; rw [h2]; exact hwt

/-- C2 witness: a fresh conversation whose job polls `running` once and
then `failed`. -/
theorem c2_terminal_failure_witness :
    handle_conversation c2Env "asst_2" "hi" none []
      = { outcome := .ret none (some "thread_2"), email_history := [],
          submitted := [],
          errors := ["Assistant run failed: " ++ RunStatus.failed.statusName],
          sleeps := 1 } :=
  c2_terminal_failure c2Env "asst_2" "hi" none "thread_2" [] 1 .failed
    (Or.inr ⟨rfl, rfl⟩) rfl ⟨"run_2", rfl⟩ rfl rfl

/-- Whenever the polling loop returns a pair at all, the thread
component is the id the loop was entered with. -/
theorem runPollLoop_ret_thread (env : RemoteEnv) (tid : String)
    (trace : List (Except String RunStatus)) (email_history : List EmailRecord)
    (submitted : List (List ToolOutput)) (n : Nat) (r th : Option String)
    (h : (runPollLoop env tid trace email_history submitted n).outcome = .ret r th) :
    th = some tid := by
  induction trace generalizing email_history submitted n with
  | nil => simp [runPollLoop] at h
  | cons poll rest ih =>
    cases poll with
    | error e =>
      rw [runPollLoop.eq_def] at h
      dsimp only [exceptReturn] at h
      injection h with h1 h2
      exact h2.symm
    | ok status =>
      cases status with
      | running =>
        rw [runPollLoop.eq_def] at h
        dsimp only at h
        exact ih _ _ _ h
      | completed =>
        rw [runPollLoop.eq_def] at h
        dsimp only at h
        unfold fetchLatest at h
        split at h
        · dsimp only [exceptReturn] at h; injection h with h1 h2; exact h2.symm
        · split at h
          · dsimp only [exceptReturn] at h; injection h with h1 h2; exact h2.symm
          · split at h
            · dsimp only [exceptReturn] at h; injection h with h1 h2; exact h2.symm
            · dsimp only at h; injection h with h1 h2; exact h2.symm
      | requires_action calls =>
        rw [runPollLoop.eq_def] at h
        dsimp only at h
        split at h
        · dsimp only [exceptReturn] at h; injection h with h1 h2; exact h2.symm
        · split at h
          · dsimp only [exceptReturn] at h; injection h with h1 h2; exact h2.symm
          · exact ih _ _ _ h
      | failed =>
        rw [runPollLoop.eq_def] at h
        dsimp only at h
        injection h with h1 h2
        exact h2.symm
      | cancelled =>
        rw [runPollLoop.eq_def] at h
        dsimp only at h
        injection h with h1 h2
        exact h2.symm
      | expired =>
        rw [runPollLoop.eq_def] at h
        dsimp only at h
        injection h with h1 h2
        exact h2.symm

/-- After the thread id is settled, any returned pair carries that id. -/
theorem handleWithThread_ret_thread (env : RemoteEnv) (tid : String)
    (email_history : List EmailRecord) (r th : Option String)
    (h : (handleWithThread env tid email_history).outcome = .ret r th) :
    th = some tid := by
  unfold handleWithThread at h
  split at h
  · dsimp only [exceptReturn] at h; injection h with h1 h2; exact h2.symm
  · split at h
    · dsimp only [exceptReturn] at h; injection h with h1 h2; exact h2.symm
    · exact runPollLoop_ret_thread env tid _ _ _ _ r th h

/-- C10: whatever happens inside `handle_conversation` (including a
caught exception), the conversation id it returns is the thread that was
supplied, or the one successfully created when none was supplied; and if
no thread was supplied and thread creation itself raises, the call
returns `(None, None)` with no conversation id for the caller to reuse
and no other effect. -/
theorem c10_exception_returns_last_thread (env : RemoteEnv)
    (assistant_id user_input : String) (conversation_thread : Option String)
    (email_history : List EmailRecord) :
    (∀ r th,
        (handle_conversation env assistant_id user_input conversation_thread
            email_history).outcome = .ret r th →
        th = (match conversation_thread with
              | some t => some t
              | none =>
                match env.newThreadId with
                | .ok t => some t
                | .error _ => none)) ∧
    (∀ e, conversation_thread = none → env.newThreadId = .error e →
        handle_conversation env assistant_id user_input conversation_thread email_history
          = { outcome := .ret none none, email_history := email_history,
              submitted := [], errors := ["Conversation error: " ++ e],
              sleeps := 0 }) := by
  constructor
  · intro r th h
    cases conversation_thread with
    | some t =>
      unfold handle_conversation at h
      exact handleWithThread_ret_thread env t email_history r th h
    | none =>
      cases hnt : env.newThreadId with
      | error e =>
        unfold handle_conversation at h
        rw [hnt] at h
        dsimp only [exceptReturn] at h
        injection h with h1 h2
        dsimp only
        exact h2.symm
      | ok t =>
        unfold handle_conversation at h
        rw [hnt] at h
        dsimp only at h ⊢
        exact handleWithThread_ret_thread env t email_history r th h
  · intro e h1 h2
    subst h1
    unfold handle_conversation
    rw [h2]
    rfl

/-- C10 witness: thread creation raises on a call with no prior
conversation, so the caller gets `(None, None)`. -/
theorem c10_exception_witness :
    handle_conversation c10Env "asst_10" "hi" none []
      = { outcome := .ret none none, email_history := [],
          submitted := [], errors := ["Conversation error: APIConnectionError"],
          sleeps := 0 } :=
  (c10_exception_returns_last_thread c10Env "asst_10" "hi" none []).2
    "APIConnectionError" rfl rfl

/-- Dispatching a batch in which every `send_email` call binds: each
recognised call yields exactly one output keyed by its id and appends
exactly one record; unrecognised names contribute nothing. -/
theorem processToolCalls_ok (now : String) (calls : List ToolCall)
    (hok : ∀ c ∈ calls, c.name = "send_email" → bindsOk c = true) :
    ∀ email_history : List EmailRecord,
    ∃ outs records,
      processToolCalls now calls email_history = (.ok outs, email_history ++ records) ∧
      outs.map ToolOutput.tool_call_id
        = (calls.filter fun c => c.name == "send_email").map ToolCall.id ∧
      records.length = (calls.filter fun c => c.name == "send_email").length := by
  induction calls with
  | nil =>
    intro eh
    exact ⟨[], [], by simp [processToolCalls], by simp, by simp⟩
  | cons c rest ih =>
    intro eh
    have hok' : ∀ x ∈ rest, x.name = "send_email" → bindsOk x = true :=
      fun x hx => hok x (List.mem_cons_of_mem _ hx)
    by_cases hname : c.name = "send_email"
    · have hb : bindsOk c = true := hok c (List.mem_cons_self ..) hname
      unfold bindsOk at hb
      rcases hbk : bindEmailKwargs c.arguments with e | ⟨r, s, b⟩
      · rw [hbk] at hb; simp at hb
      · obtain ⟨outs, records, heq, hmap, hlen⟩ :=
          ih hok' (eh ++ [⟨r, s, b, now⟩])
        refine ⟨⟨c.id, "Email successfully sent to " ++ r⟩ :: outs,
          ⟨r, s, b, now⟩ :: records, ?_, ?_, ?_⟩
        · unfold processToolCalls
          rw [if_pos hname, hbk]
          dsimp only [simulate_email_sending]
          rw [heq]
          simp
        · simp [List.filter_cons, hname, hmap]
        · simp [List.filter_cons, hname, hlen]
    · obtain ⟨outs, records, heq, hmap, hlen⟩ := ih hok' eh
      refine ⟨outs, records, ?_, ?_, ?_⟩
      · unfold processToolCalls
        rw [if_neg hname]
        exact heq
      · simp [List.filter_cons, hname, hmap]
      · simp [List.filter_cons, hname, hlen]

/-- The completed-run epilogue never touches the submitted batches. -/
theorem fetchLatest_submitted (env : RemoteEnv) (ct : String) (eh : List EmailRecord)
    (subs : List (List ToolOutput)) (n : Nat) :
    (fetchLatest env ct eh subs n).submitted = subs := by
  unfold fetchLatest
  split
  · rfl
  · split
    · rfl
    · split <;> rfl

/-- The completed-run epilogue always returns a pair. -/
theorem fetchLatest_not_diverge (env : RemoteEnv) (ct : String) (eh : List EmailRecord)
    (subs : List (List ToolOutput)) (n : Nat) :
    (fetchLatest env ct eh subs n).outcome ≠ .diverge := by
  unfold fetchLatest
  split
  · exact fun h => Outcome.noConfusion h
  · split
    · exact fun h => Outcome.noConfusion h
    · split <;> exact fun h => Outcome.noConfusion h

/-- On a trace with no terminal status (and no exception), the loop
consumes every poll, sleeping once per poll, and is still running. -/
theorem runPollLoop_no_terminal (env : RemoteEnv) (tid : String)
    (hsubmit : env.submitOutcome = .ok ()) :
    ∀ trace : List RunStatus, (∀ s ∈ trace, statusOk s = true) →
    (∀ s ∈ trace, s.isTerminal = false) →
    ∀ (email_history : List EmailRecord) (submitted : List (List ToolOutput)) (n : Nat),
      (runPollLoop env tid (trace.map Except.ok) email_history submitted n).outcome
          = .diverge ∧
      (runPollLoop env tid (trace.map Except.ok) email_history submitted n).sleeps
          = n + trace.length := by
  intro trace
  induction trace with
  | nil => intro _ _ eh sub n; simp [runPollLoop]
  | cons s rest ih =>
    intro hok hnt eh sub n
    have hok_s := hok s (List.mem_cons_self ..)
    have hnt_s := hnt s (List.mem_cons_self ..)
    have hok' : ∀ x ∈ rest, statusOk x = true :=
      fun x hx => hok x (List.mem_cons_of_mem _ hx)
    have hnt' : ∀ x ∈ rest, x.isTerminal = false :=
      fun x hx => hnt x (List.mem_cons_of_mem _ hx)
    cases s with
    | running =>
      rw [List.map_cons, runPollLoop.eq_def]
      dsimp only
      have h3 := ih hok' hnt' eh sub (n + 1)
      refine ⟨h3.1, ?_⟩
      rw [h3.2]
      simp [List.length_cons]
      omega
    | requires_action calls =>
      have hcalls : ∀ c ∈ calls, c.name = "send_email" → bindsOk c = true := by
        intro c hc hcn
        unfold statusOk at hok_s
        have h2 := List.all_eq_true.mp hok_s c hc
        simpa [hcn] using h2
      obtain ⟨outs, records, heq, -, -⟩ := processToolCalls_ok env.now calls hcalls eh
      rw [List.map_cons, runPollLoop.eq_def]
      dsimp only
      rw [heq]
      dsimp only
      rw [hsubmit]
      dsimp only
      have h3 := ih hok' hnt' (eh ++ records) (sub ++ [outs]) (n + 1)
      refine ⟨h3.1, ?_⟩
      rw [h3.2]
      simp [List.length_cons]
      omega
    | completed => simp [RunStatus.isTerminal] at hnt_s
    | failed => simp [RunStatus.isTerminal] at hnt_s
    | cancelled => simp [RunStatus.isTerminal] at hnt_s
    | expired => simp [RunStatus.isTerminal] at hnt_s

/-- If the trace contains any terminal status, the loop exits. -/
theorem runPollLoop_terminal_exits (env : RemoteEnv) (tid : String) :
    ∀ trace : List RunStatus, (∃ s ∈ trace, s.isTerminal = true) →
    ∀ (email_history : List EmailRecord) (submitted : List (List ToolOutput)) (n : Nat),
      (runPollLoop env tid (trace.map Except.ok) email_history submitted n).outcome
        ≠ .diverge := by
  intro trace
  induction trace with
  | nil => rintro ⟨s, hs, -⟩; exact absurd hs (List.not_mem_nil s)
  | cons s rest ih =>
    rintro ⟨t, ht, hterm⟩ eh sub n
    cases s with
    | running =>
      have ht' : t ∈ rest := by
        rcases List.mem_cons.mp ht with rfl | h
        · simp [RunStatus.isTerminal] at hterm
        · exact h
      rw [List.map_cons, runPollLoop.eq_def]
      dsimp only
      exact ih ⟨t, ht', hterm⟩ eh sub (n + 1)
    | requires_action calls =>
      have ht' : t ∈ rest := by
        rcases List.mem_cons.mp ht with rfl | h
        · simp [RunStatus.isTerminal] at hterm
        · exact h
      rw [List.map_cons, runPollLoop.eq_def]
      dsimp only
      rcases hpc : processToolCalls env.now calls eh with ⟨res, eh2⟩
      cases res with
      | error e =>
        dsimp only
        exact fun h => Outcome.noConfusion h
      | ok outs =>
        dsimp only
        cases hsub : env.submitOutcome with
        | error e =>
          dsimp only
          exact fun h => Outcome.noConfusion h
        | ok u =>
          dsimp only
          exact ih ⟨t, ht', hterm⟩ eh2 (sub ++ [outs]) (n + 1)
    | completed =>
      rw [List.map_cons, runPollLoop.eq_def]
      dsimp only
      exact fetchLatest_not_diverge env tid eh sub n
    | failed =>
      rw [List.map_cons, runPollLoop.eq_def]
      dsimp only
      exact fun h => Outcome.noConfusion h
    | cancelled =>
      rw [List.map_cons, runPollLoop.eq_def]
      dsimp only
      exact fun h => Outcome.noConfusion h
    | expired =>
      rw [List.map_cons, runPollLoop.eq_def]
      dsimp only
      exact fun h => Outcome.noConfusion h

/-- C7: the polling loop exits exactly when the fetched status sequence
contains a terminal status (`completed`, `failed`, `cancelled` or
`expired`); on a sequence that stays non-terminal (`running`, possibly
interleaved with `requires_action` pauses) it never exits — there is no
iteration bound — and it waits exactly one fixed 1-unit interval between
consecutive polls (one sleep per non-terminal poll). -/
theorem c7_poll_loop_termination (env : RemoteEnv) (tid : String)
    (trace : List RunStatus) (email_history : List EmailRecord)
    (hsubmit : env.submitOutcome = .ok ())
    (hok : ∀ s ∈ trace, statusOk s = true) :
    ((runPollLoop env tid (trace.map Except.ok) email_history [] 0).outcome ≠ .diverge ↔
        ∃ s ∈ trace, s.isTerminal = true) ∧
    ((∀ s ∈ trace, s.isTerminal = false) →
        (runPollLoop env tid (trace.map Except.ok) email_history [] 0).outcome
          = .diverge ∧
        (runPollLoop env tid (trace.map Except.ok) email_history [] 0).sleeps
          = trace.length) := by
  constructor
  · constructor
    · intro hnd
      by_contra hcon
      push_neg at hcon
      have hnt : ∀ s ∈ trace, s.isTerminal = false := by
        intro s hs
        have := hcon s hs
        simpa using this
      exact hnd (runPollLoop_no_terminal env tid hsubmit trace hok hnt email_history [] 0).1
    · intro hex
      exact runPollLoop_terminal_exits env tid trace hex email_history [] 0
  · intro hnt
    have h := runPollLoop_no_terminal env tid hsubmit trace hok hnt email_history [] 0
    refine ⟨h.1, ?_⟩
    rw [h.2]
    exact Nat.zero_add _

/-- C7 witness: a two-poll trace oscillating between `running` and an
empty `requires_action` pause leaves the loop still running after both
polls, with one sleep per poll. -/
theorem c7_poll_loop_termination_witness :
    (runPollLoop c7Env "thread_7"
        ([RunStatus.running, RunStatus.requires_action []].map Except.ok) [] [] 0).outcome
      = Outcome.diverge ∧
    (runPollLoop c7Env "thread_7"
        ([RunStatus.running, RunStatus.requires_action []].map Except.ok) [] [] 0).sleeps
      = 2 :=
  (c7_poll_loop_termination c7Env "thread_7" [.running, .requires_action []] [] rfl
    (by decide)).2 (by decide)

/-- C4 counterexample: a `requires_action` batch with one invocation
named `send_email` whose arguments use the declared schema keys
(`to`/`subject`/`body`) produces no output entry at all — the dispatch
raises `TypeError` — and the loop submits no batch and records no email,
refuting the claim that every `send_email` invocation produces exactly
one output entry in a submitted batch. -/
theorem c4_schema_keyed_send_email_yields_no_output :
    processToolCalls "t4" [c4BadCall] []
      = (.error "TypeError: simulate_email_sending() got an unexpected keyword argument to",
         []) ∧
    (runPollLoop c4Env "thread_4"
        [.ok (.requires_action [c4BadCall]), .ok .completed] [] [] 0).submitted = [] ∧
    (runPollLoop c4Env "thread_4"
        [.ok (.requires_action [c4BadCall]), .ok .completed] [] [] 0).email_history = [] :=
  ⟨rfl, rfl, rfl⟩

/-- C4 amended: in a `requires_action` batch whose `send_email`
invocations all bind to the handler parameters, an invocation with any
other declared name contributes no output entry and no email record; each
`send_email` invocation contributes exactly one output entry keyed by its
invocation id and one record; and the batch of exactly these outputs is
submitted in a single round trip before polling resumes. -/
theorem c4_batch_outputs_match_recognized_calls (env : RemoteEnv) (tid : String)
    (function_calls : List ToolCall) (email_history : List EmailRecord)
    (hsubmit : env.submitOutcome = .ok ())
    (hok : ∀ c ∈ function_calls, c.name = "send_email" → bindsOk c = true) :
    ∃ outs records,
      processToolCalls env.now function_calls email_history
          = (.ok outs, email_history ++ records) ∧
      outs.map ToolOutput.tool_call_id
          = (function_calls.filter fun c => c.name == "send_email").map ToolCall.id ∧
      records.length = (function_calls.filter fun c => c.name == "send_email").length ∧
      (runPollLoop env tid [.ok (.requires_action function_calls), .ok .completed]
          email_history [] 0).submitted = [outs] := by
  obtain ⟨outs, records, heq, hmap, hlen⟩ :=
    processToolCalls_ok env.now function_calls hok email_history
  refine ⟨outs, records, heq, hmap, hlen, ?_⟩
  rw [runPollLoop.eq_def]
  dsimp only
  rw [heq]
  dsimp only
  rw [hsubmit]
  dsimp only
  rw [runPollLoop.eq_def]
  dsimp only
  rw [fetchLatest_submitted]
  rfl

/-- C4 witness: a batch of one unrecognised invocation and one bindable
`send_email` invocation. -/
theorem c4_batch_outputs_witness :
    ∃ outs records,
      processToolCalls c4Env.now [c4OtherCall, c4GoodCall] []
          = (.ok outs, [] ++ records) ∧
      outs.map ToolOutput.tool_call_id
          = (([c4OtherCall, c4GoodCall]).filter fun c => c.name == "send_email").map
              ToolCall.id ∧
      records.length
          = (([c4OtherCall, c4GoodCall]).filter fun c => c.name == "send_email").length ∧
      (runPollLoop c4Env "thread_4"
          [.ok (.requires_action [c4OtherCall, c4GoodCall]), .ok .completed]
          [] [] 0).submitted = [outs] :=
  c4_batch_outputs_match_recognized_calls c4Env "thread_4" [c4OtherCall, c4GoodCall] []
    rfl (by decide)

/-- C5 counterexample: a `requires_action` batch of two identical
`send_email` invocations carrying the declared schema keys records
nothing at all (the first dispatch raises `TypeError`), refuting the
claim that repeated identical invocations in one batch are each executed
and recorded once per request received. -/
theorem c5_identical_schema_keyed_batch_records_nothing :
    processToolCalls "t5" [c5BadCall, c5BadCall] []
      = (.error "TypeError: simulate_email_sending() got an unexpected keyword argument to",
         []) :=
  rfl

/-- C5 amended: the capability handler itself never deduplicates —
calling it twice with identical arguments appends two independent
records — and a batch of `n` identical `send_email` invocations whose
arguments bind to the handler parameters is executed and recorded once
per request (`n` outputs, `n` records); identical invocations carrying
the schema keys instead raise `TypeError` and record nothing. -/
theorem c5_no_deduplication (recipient subject message_body now : String)
    (email_history : List EmailRecord) :
    (simulate_email_sending recipient subject message_body now
        (simulate_email_sending recipient subject message_body now email_history).2).2
      = email_history ++
        [{ recipient := recipient, subject := subject, body := message_body,
           sent_at := now },
         { recipient := recipient, subject := subject, body := message_body,
           sent_at := now }] ∧
    (∀ (n : Nat) (call : ToolCall), call.name = "send_email" →
      bindEmailKwargs call.arguments = .ok (recipient, subject, message_body) →
      processToolCalls now (List.replicate n call) email_history =
        (.ok (List.replicate n
            { tool_call_id := call.id,
              output := "Email successfully sent to " ++ recipient }),
         email_history ++ List.replicate n
            { recipient := recipient, subject := subject, body := message_body,
              sent_at := now })) := by
  constructor
  · simp [simulate_email_sending]
  · intro n call hname hbind
    induction n generalizing email_history with
    | zero => simp [processToolCalls, List.replicate]
    | succ n ih =>
      rw [List.replicate_succ]
      unfold processToolCalls
      rw [if_pos hname, hbind]
      dsimp only [simulate_email_sending]
      rw [ih]
      simp [List.replicate_succ]

/-- C5 witness: two direct identical handler calls append two records,
and a batch of two identical bindable invocations is executed and
recorded twice. -/
theorem c5_no_deduplication_witness :
    (simulate_email_sending "w@x.io" "Q" "R" "t5"
        ((simulate_email_sending "w@x.io" "Q" "R" "t5" []).2)).2
      = [] ++
        [{ recipient := "w@x.io", subject := "Q", body := "R", sent_at := "t5" },
         { recipient := "w@x.io", subject := "Q", body := "R", sent_at := "t5" }] ∧
    processToolCalls "t5" (List.replicate 2 c5GoodCall) [] =
      (.ok (List.replicate 2
          { tool_call_id := "call_5g",
            output := "Email successfully sent to " ++ "w@x.io" }),
       [] ++ List.replicate 2
          { recipient := "w@x.io", subject := "Q", body := "R", sent_at := "t5" }) := by
  have h := c5_no_deduplication "w@x.io" "Q" "R" "t5" []
  exact ⟨h.1, h.2 2 c5GoodCall rfl rfl⟩

end App
